import Mathlib

/-!
Shallow embedding of the S3I client core of the
`experiment-coordination-dashboard` repository:

* `src/server_code/s3i/auth.py`    — `Token`, `BaseAuthenticator.obtain_token`,
  `_get_token_from_idp`, `_refresh_token`, `PasswordAuthenticator._build_auth_payload`
* `src/server_code/s3i/broker.py`  — `Broker.send`, `Broker.receive`,
  transport-ownership flags (`external_client`, `__del__`)
* `src/server_code/s3i/exceptions.py` — `S3IException` hierarchy
* `src/server_code/background/fetch_messages.py` — the drain loop
  `fetch_s3i_messages`

`datetime.now()` is modelled as an explicit integer timestamp parameter `now`;
HTTP responses are modelled as records carrying the fields the Python code
reads (`status_code`, `text`, and for the identity provider the JSON token
fields).  Raising an exception is modelled with `Except`.
-/

namespace S3I

/-- The exception subclass hierarchy of `exceptions.py`, flattened to a tag:
`S3IException` is the base, `AuthenticationException` a subclass, and
`InvalidCredentialsException` a subclass of `AuthenticationException`. -/
inductive ExcKind where
  | s3i
  | authentication
  | invalidCredentials
deriving DecidableEq, Repr

/-- `S3IException.__init__`: the message plus the four optional metadata
fields (`headers`, `body`, `status_code`, `response`).  Headers are an
association list; `body` holds the original message text when present. -/
structure S3IException where
  kind : ExcKind
  message : String
  headers : Option (List (String × String))
  body : Option String
  status_code : Option Nat
  response : Option String
deriving DecidableEq, Repr

/-- Build an `AuthenticationException` value. -/
def mkAuthExc (message : String) (status_code : Option Nat)
    (response : Option String) : S3IException :=
  { kind := ExcKind.authentication, message := message, headers := none,
    body := none, status_code := status_code, response := response }

/-- Build an `InvalidCredentialsException` value. -/
def mkInvalidCredentialsExc (message : String) (status_code : Option Nat)
    (response : Option String) : S3IException :=
  { kind := ExcKind.invalidCredentials, message := message, headers := none,
    body := none, status_code := status_code, response := response }

/-- The `Token` dataclass of `auth.py`: expiry instants are absolute
timestamps, modelled as integers. -/
structure Token where
  auth_scheme : String
  token_content : String
  expires_at : Int
  refresh_token : String
  refresh_expires_at : Int
deriving DecidableEq, Repr

/-- `Token.expired`, exactly as written in the source:
`return datetime.now() < self.expires_at`. -/
def Token.expired (t : Token) (now : Int) : Bool :=
  now < t.expires_at

/-- `Token.refresh_expired`, exactly as written in the source:
`return datetime.now() < self.refresh_expires_at`. -/
def Token.refresh_expired (t : Token) (now : Int) : Bool :=
  now < t.refresh_expires_at

/-- `Token.full_token`: `f"{self.auth_scheme} {self.token_content}"`. -/
def Token.full_token (t : Token) : String :=
  t.auth_scheme ++ " " ++ t.token_content

/-- An identity-provider HTTP response as read by `auth.py`: the status code,
the raw body text, and the JSON token fields the success path extracts. -/
structure IdpResponse where
  status_code : Nat
  text : String
  token_type : String
  access_token : String
  expires_in : Int
  refresh_token : String
  refresh_expires_in : Int
deriving DecidableEq, Repr

/-- The exact provider error body that `_get_token_from_idp` compares
`response.text` against. -/
def invalidClientText : String :=
  "\x7b\"error\":\"invalid_client\",\"error_description\":\"Invalid client credentials\"\x7d"

/-- `BaseAuthenticator._get_token_from_idp`: on status ≥ 400 raise
`InvalidCredentialsException` when the body is exactly `invalidClientText`,
otherwise `AuthenticationException`; on success build a `Token` with
expiry instants `now + expires_in` and `now + refresh_expires_in`. -/
def get_token_from_idp (resp : IdpResponse) (now : Int) :
    Except S3IException Token :=
  if resp.status_code ≥ 400 then
    if resp.text = invalidClientText then
      Except.error (mkInvalidCredentialsExc "Invalid client credentials."
        (some resp.status_code) (some resp.text))
    else
      Except.error (mkAuthExc "Could not obtain token from S3I Identity Provider."
        (some resp.status_code) (some resp.text))
  else
    Except.ok
      { auth_scheme := resp.token_type
        token_content := resp.access_token
        expires_at := now + resp.expires_in
        refresh_token := resp.refresh_token
        refresh_expires_at := now + resp.refresh_expires_in }

/-- `BaseAuthenticator._refresh_token`: raises `AuthenticationException` on
status ≥ 400; on success the Python function has no `return` statement and
falls off the end, so it returns `None` — modelled as `Except.ok none`. -/
def refresh_token_call (resp : IdpResponse) :
    Except S3IException (Option Token) :=
  if resp.status_code ≥ 400 then
    Except.error (mkAuthExc "Could not refresh token from S3I Identity Provider."
      (some resp.status_code) (some resp.text))
  else
    Except.ok none

/-- Which identity-provider request (if any) one `obtain_token` call issues. -/
inductive IdpCall where
  | noCall
  | refreshCall
  | fullCall
deriving DecidableEq, Repr

/-- `BaseAuthenticator.obtain_token`.  `cached` is `self.__token` before the
call; `refreshResp` / `fullResp` are the responses the transport would give
to a refresh-grant / full-grant request.  The result is the return value (or
raised exception), the value of `self.__token` after the call, and which
request was made.  The tri-state decision and the final
`if self.__token is None: raise` guard are transcribed from the source. -/
def obtain_token (cached : Option Token) (now : Int)
    (refreshResp fullResp : IdpResponse) :
    Except S3IException Token × Option Token × IdpCall :=
  let step : Except S3IException (Option Token) × IdpCall :=
    match cached with
    | some t =>
      if t.expired now = false then
        (Except.ok (some t), IdpCall.noCall)
      else if t.refresh_expired now = false then
        (refresh_token_call refreshResp, IdpCall.refreshCall)
      else
        ((get_token_from_idp fullResp now).map some, IdpCall.fullCall)
    | none => ((get_token_from_idp fullResp now).map some, IdpCall.fullCall)
  match step with
  | (Except.error e, c) => (Except.error e, cached, c)
  | (Except.ok none, c) =>
      (Except.error (mkAuthExc "Could not obtain token from S3I Identity Provider."
        none none), none, c)
  | (Except.ok (some t), c) => (Except.ok t, some t, c)

/-- `Broker.__init__` / `BaseAuthenticator.__init__` ownership flag:
`self.external_client = client is None`, where the argument is the optionally
injected transport. -/
def Broker.init_external_client (client : Option Unit) : Bool :=
  client.isNone

/-- `Broker.__del__` / `BaseAuthenticator.__del__`: the transport is closed
exactly when `not self.external_client`. -/
def Broker.del_closes (external_client : Bool) : Bool :=
  !external_client

/-- A broker HTTP response as read by `broker.py`. -/
structure HttpResponse where
  status_code : Nat
  text : String
  headers : List (String × String)
deriving DecidableEq, Repr

/-- The `S3IException` that `Broker.receive` raises on a non-200 status. -/
def Broker.recvError (endpoint : String) (resp : HttpResponse) : S3IException :=
  { kind := ExcKind.s3i
    message := "Failed to get message from " ++ endpoint ++ "."
    headers := some resp.headers
    body := none
    status_code := some resp.status_code
    response := some resp.text }

/-- `Broker.receive`, given the broker's HTTP response: non-200 raises,
status 200 with empty body yields `none`, otherwise `(status, text)`. -/
def Broker.receive (endpoint : String) (resp : HttpResponse) :
    Except S3IException (Option (Nat × String)) :=
  if resp.status_code ≠ 200 then
    Except.error (Broker.recvError endpoint resp)
  else if resp.text = "" then
    Except.ok none
  else
    Except.ok (some (resp.status_code, resp.text))

/-- The `S3IException` that `Broker.send` raises on a non-201 status: it
carries the response headers, the original message body, the status code and
the response text. -/
def Broker.sendError (endpoint message : String) (resp : HttpResponse) :
    S3IException :=
  { kind := ExcKind.s3i
    message := "Failed to send message to " ++ endpoint ++ "."
    headers := some resp.headers
    body := some message
    status_code := some resp.status_code
    response := some resp.text }

/-- `Broker.send`, given the broker's HTTP response: non-201 raises,
status 201 returns `(status, text)`. -/
def Broker.send (endpoint message : String) (resp : HttpResponse) :
    Except S3IException (Nat × String) :=
  if resp.status_code ≠ 201 then
    Except.error (Broker.sendError endpoint message resp)
  else
    Except.ok (resp.status_code, resp.text)

/-- One result of a `broker.receive()` call as seen by the drain loop:
a message body, the empty-queue signal (`None`), or a raised exception. -/
inductive ReceiveOutcome where
  | msg (text : String)
  | empty
  | fail (e : S3IException)
deriving DecidableEq, Repr

/-- Outcome of one `fetch_s3i_messages` invocation: normal return, the final
`ExceptionGroup` carrying the accumulated per-message exceptions, or an
exception propagating out of `broker.receive()` itself. -/
inductive FetchResult where
  | ok
  | aggregate (errs : List String)
  | raised (e : S3IException)
deriving DecidableEq, Repr

/-- The post-loop check of `fetch_s3i_messages`:
`if exceptions: raise ExceptionGroup(..., exceptions)`. -/
def finishDrain (exceptions : List String) : FetchResult :=
  if exceptions.isEmpty then FetchResult.ok else FetchResult.aggregate exceptions

/-- The `while (result := broker.receive()) is not None` loop of
`fetch_s3i_messages`, run against a finite trace of receive outcomes.
`handler` is `handle_single_message` (its exceptions are modelled as string
messages); the `try` block catches any handler exception and appends it to
the accumulator, while an exception from `receive()` itself is outside the
`try` and propagates at once.  The second component counts how many times
`receive()` was called.  An exhausted trace behaves like an empty queue. -/
def drainLoop (handler : String → Except String Unit) :
    List ReceiveOutcome → List String → FetchResult × Nat
  | [], exceptions => (finishDrain exceptions, 0)
  | ReceiveOutcome.msg t :: rest, exceptions =>
    let acc :=
      match handler t with
      | Except.ok _ => exceptions
      | Except.error e => exceptions ++ [e]
    let r := drainLoop handler rest acc
    (r.1, r.2 + 1)
  | ReceiveOutcome.empty :: _, exceptions => (finishDrain exceptions, 1)
  | ReceiveOutcome.fail e :: _, _ => (FetchResult.raised e, 1)

/-- `fetch_s3i_messages`: run the drain loop with an empty accumulator. -/
def fetch_s3i_messages (handler : String → Except String Unit)
    (trace : List ReceiveOutcome) : FetchResult × Nat :=
  drainLoop handler trace []

/-- The handler exceptions raised over a list of message bodies, in order. -/
def handlerFailures (handler : String → Except String Unit) :
    List String → List String
  | [] => []
  | t :: rest =>
    match handler t with
    | Except.ok _ => handlerFailures handler rest
    | Except.error e => e :: handlerFailures handler rest

/-- Python truthiness of an optional string: `None` and `""` are falsy. -/
def pyTruthy : Option String → Bool
  | none => false
  | some s => !(s == "")

/-- `PasswordAuthenticator._build_auth_payload`: when both username and
password are truthy, the dict union of the grant/client fields with the
username/password fields; otherwise the empty dict (dicts as ordered
association lists). -/
def PasswordAuthenticator.build_auth_payload (id secret : String)
    (username password : Option String) : List (String × String) :=
  if pyTruthy username && pyTruthy password then
    [("grant_type", "password"), ("client_id", id), ("client_secret", secret),
     ("username", username.getD ""), ("password", password.getD "")]
  else []

/-- Concrete token for exercising the expiry predicates: the access token
expires at time 10 and the refresh token at time 20. -/
def tokC1 : Token :=
  { auth_scheme := "Bearer", token_content := "tc", expires_at := 10,
    refresh_token := "rt", refresh_expires_at := 20 }

/-- Concrete cached token whose access token is genuinely expired
(`expires_at = 0`) while its refresh token is still valid
(`refresh_expires_at = 10`) at time 5. -/
def tokC2 : Token :=
  { auth_scheme := "Bearer", token_content := "stale", expires_at := 0,
    refresh_token := "ref", refresh_expires_at := 10 }

/-- Concrete cached token steering `obtain_token` into the refresh branch of
the source: under the source's inverted predicates that branch is taken when
`now < expires_at` and `refresh_expires_at ≤ now`. -/
def tokC2b : Token :=
  { auth_scheme := "Bearer", token_content := "stale2", expires_at := 10,
    refresh_token := "ref2", refresh_expires_at := 3 }

/-- Concrete cached token that is still valid at time 5
(`expires_at = 10`, `refresh_expires_at = 20`). -/
def tokC3 : Token :=
  { auth_scheme := "Bearer", token_content := "live", expires_at := 10,
    refresh_token := "rt3", refresh_expires_at := 20 }

/-- A successful (status 200) identity-provider response. -/
def respOk : IdpResponse :=
  { status_code := 200, text := "body", token_type := "Bearer",
    access_token := "newtok", expires_in := 60, refresh_token := "newref",
    refresh_expires_in := 1800 }

/-- Claim C1: the spec says `Token.expired` is false strictly before
`expires_at` and true at/after it (likewise `refresh_expired`).  The source
computes `datetime.now() < self.expires_at`, the exact inversion: at time 5,
strictly before both expiries of `tokC1`, both predicates return `true`, and
at time 15, at/after the access expiry, `expired` returns `false`. -/
theorem c1_expired_inverted :
    Token.expired tokC1 5 = true ∧ (5 : Int) < tokC1.expires_at ∧
    Token.refresh_expired tokC1 5 = true ∧ (5 : Int) < tokC1.refresh_expires_at ∧
    Token.expired tokC1 15 = false ∧ tokC1.expires_at ≤ (15 : Int) := by
  decide

/-- Claim C2: the spec says that with an expired access token and a valid
refresh token, a successful refresh response replaces the cache and is
returned without raising.  On the source, at time 5 with cached `tokC2`
(access expired, refresh valid) the inverted `expired` predicate takes the
reuse branch: the stale token is returned unchanged and no request is made.
And when the refresh branch is reached (cached `tokC2b`), a successful
refresh response still ends in `AuthenticationException`, because
`_refresh_token` returns `None` on success. -/
theorem c2_refresh_flow_broken :
    obtain_token (some tokC2) 5 respOk respOk =
      (Except.ok tokC2, some tokC2, IdpCall.noCall) ∧
    obtain_token (some tokC2b) 5 respOk respOk =
      (Except.error (mkAuthExc "Could not obtain token from S3I Identity Provider."
        none none), none, IdpCall.refreshCall) :=
  ⟨rfl, rfl⟩

/-- Claim C3: the spec says an unexpired cached token is returned with no
network call.  On the source, at time 5 with cached `tokC3` (valid until 10),
the inverted `expired` predicate skips the reuse branch and `obtain_token`
issues a full-grant request to the identity provider. -/
theorem c3_unexpired_token_still_calls_idp :
    (5 : Int) < tokC3.expires_at ∧
    (obtain_token (some tokC3) 5 respOk respOk).2.2 = IdpCall.fullCall :=
  ⟨by decide, rfl⟩

/-- Claim C5: the spec says an injected transport is never closed on
teardown while a self-created one is.  The source sets
`self.external_client = client is None` (inverted with respect to its own
docstring), and `__del__` closes when `not self.external_client`: so the
injected transport (`some ()`) IS closed and the self-created one
(`none`) is NOT. -/
theorem c5_ownership_flag_inverted :
    Broker.del_closes (Broker.init_external_client (some ())) = true ∧
    Broker.del_closes (Broker.init_external_client none) = false := by
  decide

/-- The kind of the exception a call raised, if it raised one. -/
def raisedKind : Except S3IException Token → Option ExcKind
  | Except.error e => some e.kind
  | Except.ok _ => none

/-- Claim C6: for a full-grant response with status ≥ 400,
`InvalidCredentialsException` is raised iff the body exactly equals the
known invalid-client error text; any other such response raises the generic
`AuthenticationException`. -/
theorem c6_invalid_credentials_exact_match (resp : IdpResponse) (now : Int)
    (h : 400 ≤ resp.status_code) :
    (raisedKind (get_token_from_idp resp now) = some ExcKind.invalidCredentials ↔
      resp.text = invalidClientText) ∧
    (resp.text ≠ invalidClientText →
      raisedKind (get_token_from_idp resp now) = some ExcKind.authentication) := by
  by_cases ht : resp.text = invalidClientText <;>
    simp [get_token_from_idp, raisedKind, h, ht, mkAuthExc, mkInvalidCredentialsExc]

/-- A status-401 provider response whose body is exactly the invalid-client
error text. -/
def respInvalidClient : IdpResponse :=
  { status_code := 401, text := invalidClientText, token_type := "",
    access_token := "", expires_in := 0, refresh_token := "",
    refresh_expires_in := 0 }

/-- Witness for C6 at a concrete response. -/
theorem c6_invalid_credentials_exact_match_witness :
    raisedKind (get_token_from_idp respInvalidClient 0) =
      some ExcKind.invalidCredentials :=
  (c6_invalid_credentials_exact_match respInvalidClient 0 (by decide)).1.mpr rfl

/-- Claim C7: `Broker.receive` raises on a non-200 status, returns `none` on
status 200 with an empty body, and otherwise returns `(status, text)`
unchanged. -/
theorem c7_receive_contract (endpoint : String) (resp : HttpResponse) :
    (resp.status_code ≠ 200 →
      Broker.receive endpoint resp =
        Except.error (Broker.recvError endpoint resp)) ∧
    (resp.status_code = 200 → resp.text = "" →
      Broker.receive endpoint resp = Except.ok none) ∧
    (resp.status_code = 200 → resp.text ≠ "" →
      Broker.receive endpoint resp =
        Except.ok (some (resp.status_code, resp.text))) := by
  refine ⟨fun h => ?_, fun h ht => ?_, fun h ht => ?_⟩
  · simp [Broker.receive, h]
  · simp [Broker.receive, h, ht]
  · simp [Broker.receive, h, ht]

/-- Witness for C7 at concrete responses: a 200 with empty body yields no
result, a 200 with body "m" yields the pair, a 404 raises. -/
theorem c7_receive_contract_witness :
    Broker.receive "q" ⟨200, "", []⟩ = Except.ok none ∧
    Broker.receive "q" ⟨200, "m", []⟩ = Except.ok (some (200, "m")) ∧
    Broker.receive "q" ⟨404, "nf", []⟩ =
      Except.error (Broker.recvError "q" ⟨404, "nf", []⟩) :=
  ⟨(c7_receive_contract "q" ⟨200, "", []⟩).2.1 rfl rfl,
   (c7_receive_contract "q" ⟨200, "m", []⟩).2.2 rfl (by decide),
   (c7_receive_contract "q" ⟨404, "nf", []⟩).1 (by decide)⟩

/-- Claim C8: `Broker.send` raises on a non-201 status an exception whose
`status_code` equals the upstream status and which carries the response
headers, the original message body and the response text; on status 201 it
returns `(status, text)`. -/
theorem c8_send_contract (endpoint message : String) (resp : HttpResponse) :
    (resp.status_code ≠ 201 →
      Broker.send endpoint message resp =
        Except.error (Broker.sendError endpoint message resp) ∧
      (Broker.sendError endpoint message resp).status_code = some resp.status_code ∧
      (Broker.sendError endpoint message resp).headers = some resp.headers ∧
      (Broker.sendError endpoint message resp).body = some message ∧
      (Broker.sendError endpoint message resp).response = some resp.text) ∧
    (resp.status_code = 201 →
      Broker.send endpoint message resp =
        Except.ok (resp.status_code, resp.text)) := by
  refine ⟨fun h => ?_, fun h => ?_⟩ <;>
    simp [Broker.send, Broker.sendError, h]

/-- Witness for C8 at concrete responses: a 500 raises with the diagnostic
payload, a 201 returns the pair. -/
theorem c8_send_contract_witness :
    (Broker.send "ep" "body" ⟨500, "oops", [("k", "v")]⟩ =
      Except.error (Broker.sendError "ep" "body" ⟨500, "oops", [("k", "v")]⟩) ∧
      (Broker.sendError "ep" "body" ⟨500, "oops", [("k", "v")]⟩).status_code = some 500 ∧
      (Broker.sendError "ep" "body" ⟨500, "oops", [("k", "v")]⟩).headers = some [("k", "v")] ∧
      (Broker.sendError "ep" "body" ⟨500, "oops", [("k", "v")]⟩).body = some "body" ∧
      (Broker.sendError "ep" "body" ⟨500, "oops", [("k", "v")]⟩).response = some "oops") ∧
    Broker.send "ep" "body" ⟨201, "ok", []⟩ = Except.ok (201, "ok") :=
  ⟨(c8_send_contract "ep" "body" ⟨500, "oops", [("k", "v")]⟩).1 (by decide),
   (c8_send_contract "ep" "body" ⟨201, "ok", []⟩).2 rfl⟩

/-- Claim C9: the password-grant payload contains exactly the grant type,
client id, client secret, username and password when both username and
password are truthy, and is empty when either is absent. -/
theorem c9_password_payload (id secret : String)
    (username password : Option String) :
    (pyTruthy username = true → pyTruthy password = true →
      PasswordAuthenticator.build_auth_payload id secret username password =
        [("grant_type", "password"), ("client_id", id), ("client_secret", secret),
         ("username", username.getD ""), ("password", password.getD "")]) ∧
    (pyTruthy username = false ∨ pyTruthy password = false →
      PasswordAuthenticator.build_auth_payload id secret username password = []) := by
  constructor
  · intro hu hp
    simp [PasswordAuthenticator.build_auth_payload, hu, hp]
  · intro h
    rcases h with h | h <;>
      simp [PasswordAuthenticator.build_auth_payload, h]

/-- Witness for C9 at concrete credentials: both present gives the full
payload, missing password gives the empty payload. -/
theorem c9_password_payload_witness :
    PasswordAuthenticator.build_auth_payload "cid" "csec" (some "u") (some "p") =
      [("grant_type", "password"), ("client_id", "cid"), ("client_secret", "csec"),
       ("username", "u"), ("password", "p")] ∧
    PasswordAuthenticator.build_auth_payload "cid" "csec" (some "u") none = [] :=
  ⟨(c9_password_payload "cid" "csec" (some "u") (some "p")).1 (by decide) (by decide),
   (c9_password_payload "cid" "csec" (some "u") none).2 (Or.inr rfl)⟩

/-- Helper: running the drain loop over a block of messages consumes one
`receive()` per message, appends exactly the handler failures to the
accumulator, and continues with the rest of the trace. -/
theorem drainLoop_msgs (handler : String → Except String Unit)
    (msgs : List String) (rest : List ReceiveOutcome) (acc : List String) :
    drainLoop handler (msgs.map ReceiveOutcome.msg ++ rest) acc =
      ((drainLoop handler rest (acc ++ handlerFailures handler msgs)).1,
       (drainLoop handler rest (acc ++ handlerFailures handler msgs)).2 +
         msgs.length) := by
  induction msgs generalizing acc with
  | nil => simp [handlerFailures]
  | cons t ts ih =>
    cases hh : handler t with
    | ok u =>
      simp [drainLoop, hh, handlerFailures, ih, Nat.add_comm, Nat.add_assoc,
        Nat.add_left_comm]
    | error e =>
      simp [drainLoop, hh, handlerFailures, ih, Nat.add_comm, Nat.add_assoc,
        Nat.add_left_comm, List.append_assoc]

/-- Claim C4: over a trace of messages followed by the empty-queue signal,
the drain loop catches every per-message handler exception, keeps polling
through all the messages plus one final empty `receive()`, and raises a
single aggregate carrying exactly the list of individual failures. -/
theorem c4_drain_aggregates (handler : String → Except String Unit)
    (msgs : List String) (h : handlerFailures handler msgs ≠ []) :
    fetch_s3i_messages handler
        (msgs.map ReceiveOutcome.msg ++ [ReceiveOutcome.empty]) =
      (FetchResult.aggregate (handlerFailures handler msgs),
       msgs.length + 1) := by
  have he : (handlerFailures handler msgs).isEmpty = false := by
    cases hf : handlerFailures handler msgs with
    | nil => exact absurd hf h
    | cons a l => rfl
  simp [fetch_s3i_messages, drainLoop_msgs, drainLoop, finishDrain, he,
    Nat.add_comm]

/-- A concrete `handle_single_message` that fails parsing exactly on the
body "msg2". -/
def demoHandler : String → Except String Unit :=
  fun t => if t = "msg2" then Except.error "parse failure" else Except.ok ()

/-- Witness for C4 at the spec's concrete scenario: 3 messages, message 2
fails parsing, `receive()` is issued 4 times, the aggregate carries exactly
one wrapped error. -/
theorem c4_drain_aggregates_witness :
    fetch_s3i_messages demoHandler
        [ReceiveOutcome.msg "msg1", ReceiveOutcome.msg "msg2",
         ReceiveOutcome.msg "msg3", ReceiveOutcome.empty] =
      (FetchResult.aggregate ["parse failure"], 4) := by
  have h := c4_drain_aggregates demoHandler ["msg1", "msg2", "msg3"] (by decide)
  simpa [demoHandler, handlerFailures] using h

/-- Claim C10: if `receive()` itself raises partway through the drain, the
exception propagates immediately out of the loop — the result is `raised e`,
never an aggregate, no matter how many per-message failures were
accumulated on the earlier messages. -/
theorem c10_receive_error_propagates (handler : String → Except String Unit)
    (pre : List String) (e : S3IException) (rest : List ReceiveOutcome) :
    fetch_s3i_messages handler
        (pre.map ReceiveOutcome.msg ++ ReceiveOutcome.fail e :: rest) =
      (FetchResult.raised e, pre.length + 1) := by
  simp [fetch_s3i_messages, drainLoop_msgs, drainLoop, Nat.add_comm]

end S3I
